import Mathlib

/-!
Verification of the snapshot-destroyer core of cinder-snapshooter
(src/cinder_snapshooter/snapshot_destroyer.py), as a shallow embedding.

The embedding models:
- Python date.fromisoformat on a YYYY-MM-DD string (date_fromisoformat);
- the UTC-midnight promotion and the aware-datetime comparison now > expire_at
  (DateTime, DateTime.gtb);
- the tenacity Retrying loop with wait_random(1, 2) and
  stop_after_delay(timeout) around check_snapshot_deletion (retryConfirm,
  confirmDeletion): each polling attempt is a Boolean oracle where true means
  the lookup raised ResourceNotFound (snapshot gone) and false means any
  other outcome (still found, or another exception, both retried by tenacity);
- the per-snapshot body of the for loop of process_snapshots, with its
  try/except that converts any exception into an increment of the error
  counter (evalStep);
- the whole scan including possible failures of the listing generator itself
  (runListing / process_snapshotsFull), since the for statement that pulls
  items from the generator sits outside the try block.

Counters that Python accumulates by mutation are modelled as a Counts record
summed over the snapshot list; besides the destroyed and error counters of
the source, Counts records how many delete calls were issued and how many
confirmation loops were entered, so that claims about "delete is never
called" are statable.
-/

/-- A calendar date, as produced by Python date.fromisoformat. -/
structure Date where
  year : Nat
  month : Nat
  day : Nat
deriving DecidableEq, Repr

/-- An aware UTC datetime: a date plus the time of day, here in seconds
since midnight. Only comparisons matter to the source, and Python compares
two aware datetimes with the same tzinfo componentwise. -/
structure DateTime where
  date : Date
  secs : Nat
deriving DecidableEq, Repr

/-- Strict order on dates, componentwise as in Python. -/
def Date.ltb (a b : Date) : Bool :=
  a.year < b.year ||
    (a.year == b.year &&
      (a.month < b.month || (a.month == b.month && a.day < b.day)))

/-- Strict order on aware datetimes with equal tzinfo: date first, then
time of day. DateTime.gtb a b models the Python comparison a > b. -/
def DateTime.gtb (a b : DateTime) : Bool :=
  Date.ltb b.date a.date || (b.date == a.date && b.secs < a.secs)

/-- Leap-year rule of the proleptic Gregorian calendar used by Python. -/
def isLeapYear (y : Nat) : Bool :=
  y % 4 == 0 && (y % 100 != 0 || y % 400 == 0)

/-- Number of days of a month, as Python datetime validates it. -/
def daysInMonth (y m : Nat) : Nat :=
  if m == 2 then (if isLeapYear y then 29 else 28)
  else if m == 4 || m == 6 || m == 9 || m == 11 then 30
  else 31

/-- Whether a character is an ASCII decimal digit. -/
def isDigitChar (c : Char) : Bool :=
  48 ≤ c.toNat && c.toNat ≤ 57

/-- Numeric value of an ASCII decimal digit. -/
def digitVal (c : Char) : Nat :=
  c.toNat - 48

/-- Python date.fromisoformat: accepts exactly a YYYY-MM-DD string whose
fields form a valid date of years 1 to 9999; any other string raises
ValueError, modelled as none. -/
def date_fromisoformat (s : String) : Option Date :=
  match s.toList with
  | [y1, y2, y3, y4, h1, m1, m2, h2, d1, d2] =>
    if isDigitChar y1 && isDigitChar y2 && isDigitChar y3 && isDigitChar y4
        && h1 == '-' && isDigitChar m1 && isDigitChar m2 && h2 == '-'
        && isDigitChar d1 && isDigitChar d2 then
      let y := digitVal y1 * 1000 + digitVal y2 * 100
                + digitVal y3 * 10 + digitVal y4
      let m := digitVal m1 * 10 + digitVal m2
      let d := digitVal d1 * 10 + digitVal d2
      if 1 ≤ y && 1 ≤ m && m ≤ 12 && 1 ≤ d && d ≤ daysInMonth y m then
        some ⟨y, m, d⟩
      else none
    else none
  | _ => none

/-- Lookup in a Python dict modelled as an association list. -/
def dictLookup (k : String) : List (String × String) → Option String
  | [] => none
  | (k2, v) :: rest => if k2 == k then some v else dictLookup k rest

/-- A snapshot as the scan sees it: an identifier and its metadata dict. -/
structure Snapshot where
  id : String
  metadata : List (String × String)

/-- One snapshot together with the behaviour the backend exhibits while the
scan processes it: the UTC time datetime.now returns during this iteration,
whether block_storage.delete_snapshot raises, the outcome of each polling
attempt of check_snapshot_deletion (true when get_snapshot raises
ResourceNotFound, i.e. the deletion is confirmed; false for any other
outcome, which tenacity retries), and the sleep drawn by wait_random before
each next attempt. -/
structure SnapEnv where
  snap : Snapshot
  now : DateTime
  deleteRaises : Bool
  lookups : Nat → Bool
  waits : Nat → Nat

/-- The counters of one scan. destroyed and errors are the two counters of
the source; deletes counts issued delete_snapshot calls and confirms counts
entered confirmation loops, so that never-called claims are statable. -/
structure Counts where
  destroyed : Nat
  errors : Nat
  deletes : Nat
  confirms : Nat
deriving DecidableEq, Repr

/-- All counters zero. -/
def Counts.zero : Counts := ⟨0, 0, 0, 0⟩

/-- Componentwise sum of counters. -/
def Counts.add (a b : Counts) : Counts :=
  ⟨a.destroyed + b.destroyed, a.errors + b.errors,
    a.deletes + b.deletes, a.confirms + b.confirms⟩

/-- The tenacity Retrying loop of process_snapshots, around
check_snapshot_deletion. Attempt i runs at elapsed seconds since the first
attempt; a true lookup (ResourceNotFound from get_snapshot) ends the loop
successfully with the index of the confirming attempt; on any other outcome
tenacity checks stop_after_delay: once at least timeout seconds have passed
it raises RetryError (none), otherwise it sleeps waits i seconds (drawn from
wait_random(1, 2)) and retries. Attempts themselves take no modelled time.
The fuel argument bounds the recursion; confirmDeletion supplies enough of
it for every run whose waits are at least 1, which wait_random(1, 2)
guarantees. -/
def retryConfirm (lookup : Nat → Bool) (waits : Nat → Nat) (timeout : Nat) :
    Nat → Nat → Nat → Option Nat
  | 0, _, _ => none
  | fuel + 1, i, elapsed =>
    if lookup i then some i
    else if timeout ≤ elapsed then none
    else retryConfirm lookup waits timeout fuel (i + 1) (elapsed + waits i)

/-- The confirmation loop from its first attempt: some i when attempt i
observes the snapshot gone, none when stop_after_delay expires first. -/
def confirmDeletion (lookup : Nat → Bool) (waits : Nat → Nat)
    (timeout : Nat) : Option Nat :=
  retryConfirm lookup waits timeout (timeout + 1) 0 0

/-- The body of the for loop of process_snapshots for one snapshot, under
its try/except. Reading the counters off the control flow of the source:
no expire_at key means continue; a malformed expire_at raises ValueError in
date.fromisoformat, caught as one error; a parsed date is promoted to
midnight UTC and compared with now; on now > expire_at and dry_run the scan
only logs; otherwise delete_snapshot is issued (one delete), and when it
raises that is one error, else the confirmation loop runs (one confirm) and
its outcome is either one destroyed or, on RetryError, one error. -/
def evalStep (timeout : Nat) (dryRun : Bool) (env : SnapEnv) : Counts :=
  match dictLookup "expire_at" env.snap.metadata with
  | none => Counts.zero
  | some s =>
    match date_fromisoformat s with
    | none => ⟨0, 1, 0, 0⟩
    | some d =>
      let expire_at : DateTime := ⟨d, 0⟩
      if DateTime.gtb env.now expire_at then
        if dryRun then Counts.zero
        else if env.deleteRaises then ⟨0, 1, 1, 0⟩
        else
          match confirmDeletion env.lookups env.waits timeout with
          | some _ => ⟨1, 0, 1, 1⟩
          | none => ⟨0, 1, 1, 1⟩
      else Counts.zero

/-- The counters accumulated by a whole scan over the listed snapshots. -/
def runCounts (timeout : Nat) (dryRun : Bool) : List SnapEnv → Counts
  | [] => Counts.zero
  | env :: rest => Counts.add (evalStep timeout dryRun env)
      (runCounts timeout dryRun rest)

/-- The return value of process_snapshots when the listing yields these
snapshots without failing: errors == 0. -/
def process_snapshots (timeout : Nat) (dryRun : Bool)
    (envs : List SnapEnv) : Bool :=
  (runCounts timeout dryRun envs).errors == 0

/-- One event of the snapshot listing generator: either it yields a
snapshot, or pulling the next item raises a backend error. -/
inductive ListingItem where
  | snap (env : SnapEnv)
  | raiseErr

/-- The scan against a listing that may itself fail. The for statement that
pulls items from the generator sits outside the try block, so an exception
raised by the listing propagates out of process_snapshots at once and the
counters are lost. -/
def runListing (timeout : Nat) (dryRun : Bool) :
    List ListingItem → Except Unit Counts
  | [] => Except.ok Counts.zero
  | ListingItem.raiseErr :: _ => Except.error ()
  | ListingItem.snap env :: rest =>
    match runListing timeout dryRun rest with
    | Except.error e => Except.error e
    | Except.ok c => Except.ok (Counts.add (evalStep timeout dryRun env) c)

/-- process_snapshots including possible listing failures: returns
errors == 0 when the listing completes, and propagates the listing
exception otherwise. -/
def process_snapshotsFull (timeout : Nat) (dryRun : Bool)
    (items : List ListingItem) : Except Unit Bool :=
  match runListing timeout dryRun items with
  | Except.error e => Except.error e
  | Except.ok c => Except.ok (c.errors == 0)

/-- Whether this snapshot carries an expire_at value that
date.fromisoformat rejects. -/
def hasMalformedExpireAt (env : SnapEnv) : Bool :=
  match dictLookup "expire_at" env.snap.metadata with
  | none => false
  | some s => (date_fromisoformat s).isNone

/-- Whether the scan issues a delete_snapshot call for this snapshot: not a
dry run, expire_at present and well formed, and now past its UTC midnight. -/
def reachesDelete (dryRun : Bool) (env : SnapEnv) : Bool :=
  !dryRun &&
    match dictLookup "expire_at" env.snap.metadata with
    | none => false
    | some s =>
      match date_fromisoformat s with
      | none => false
      | some d => DateTime.gtb env.now ⟨d, 0⟩

/-- Whether the confirmation loop for this snapshot runs and times out. -/
def confirmTimedOut (timeout : Nat) (dryRun : Bool) (env : SnapEnv) : Bool :=
  reachesDelete dryRun env && !env.deleteRaises
    && (confirmDeletion env.lookups env.waits timeout).isNone

/-- How many listed snapshots carry a malformed expire_at value. -/
def malformedCount (envs : List SnapEnv) : Nat :=
  envs.countP (fun e => hasMalformedExpireAt e)

/-- How many listed snapshots have their delete call raise. -/
def deleteRaisedCount (dryRun : Bool) (envs : List SnapEnv) : Nat :=
  envs.countP (fun e => reachesDelete dryRun e && e.deleteRaises)

/-- How many listed snapshots have their confirmation loop time out. -/
def confirmTimeoutCount (timeout : Nat) (dryRun : Bool)
    (envs : List SnapEnv) : Nat :=
  envs.countP (fun e => confirmTimedOut timeout dryRun e)

/-- Adding the zero counters on the left changes nothing. -/
theorem Counts.zero_add (c : Counts) : Counts.add Counts.zero c = c := by
  simp [Counts.add, Counts.zero]

/-- Counter addition is associative. -/
theorem Counts.add_assoc (a b c : Counts) :
    Counts.add (Counts.add a b) c = Counts.add a (Counts.add b c) := by
  simp [Counts.add, Nat.add_assoc]

/-- A successful confirmation happened at the first polling attempt that
observed the snapshot gone: every earlier attempt observed it still there
or failed otherwise, and was retried. -/
theorem retryConfirm_some (lookup : Nat → Bool) (waits : Nat → Nat)
    (timeout : Nat) :
    ∀ fuel i elapsed k,
      retryConfirm lookup waits timeout fuel i elapsed = some k →
      i ≤ k ∧ lookup k = true ∧ ∀ j, i ≤ j → j < k → lookup j = false := by
  intro fuel
  induction fuel with
  | zero =>
    intro i elapsed k h
    simp [retryConfirm] at h
  | succ n ih =>
    intro i elapsed k h
    simp only [retryConfirm] at h
    by_cases hl : lookup i = true
    · simp only [hl, if_true, Option.some.injEq] at h
      subst h
      exact ⟨Nat.le_refl i, hl, fun j hij hji => absurd (Nat.lt_of_le_of_lt hij hji) (Nat.lt_irrefl i)⟩
    · simp only [hl, if_false, Bool.false_eq_true] at h
      by_cases ht : timeout ≤ elapsed
      · simp [ht] at h
      · simp only [ht, if_false] at h
        obtain ⟨h1, h2, h3⟩ := ih (i + 1) (elapsed + waits i) k h
        refine ⟨Nat.le_of_succ_le h1, h2, fun j hij hjk => ?_⟩
        rcases Nat.eq_or_lt_of_le hij with heq | hlt
        · subst heq
          exact Bool.eq_false_iff.mpr hl
        · exact h3 j hlt hjk

/-- With every sleep at least one second long, as wait_random(1, 2)
guarantees, a successful confirmation cannot come later than attempt
index timeout, so the polling loop is bounded. -/
theorem retryConfirm_bound (lookup : Nat → Bool) (waits : Nat → Nat)
    (timeout : Nat) (hw : ∀ n, 1 ≤ waits n) :
    ∀ fuel i elapsed k,
      retryConfirm lookup waits timeout fuel i elapsed = some k →
      i ≤ k ∧ (k = i ∨ elapsed + (k - i) ≤ timeout) := by
  intro fuel
  induction fuel with
  | zero =>
    intro i elapsed k h
    simp [retryConfirm] at h
  | succ n ih =>
    intro i elapsed k h
    simp only [retryConfirm] at h
    by_cases hl : lookup i = true
    · simp only [hl, if_true, Option.some.injEq] at h
      subst h
      exact ⟨Nat.le_refl i, Or.inl rfl⟩
    · simp only [hl, if_false, Bool.false_eq_true] at h
      by_cases ht : timeout ≤ elapsed
      · simp [ht] at h
      · simp only [ht, if_false] at h
        obtain ⟨h1, h2⟩ := ih (i + 1) (elapsed + waits i) k h
        have hwi := hw i
        refine ⟨Nat.le_of_succ_le h1, Or.inr ?_⟩
        rcases h2 with heq | hle
        · omega
        · omega

/-- When no polling attempt would ever observe the snapshot gone, the loop
ends with stop_after_delay raising RetryError rather than looping on. -/
theorem retryConfirm_none (lookup : Nat → Bool) (waits : Nat → Nat)
    (timeout : Nat) (hall : ∀ j, lookup j = false) :
    ∀ fuel i elapsed,
      retryConfirm lookup waits timeout fuel i elapsed = none := by
  intro fuel
  induction fuel with
  | zero =>
    intro i elapsed
    simp [retryConfirm]
  | succ n ih =>
    intro i elapsed
    simp only [retryConfirm, hall i]
    by_cases ht : timeout ≤ elapsed
    · simp [ht]
    · simp [ht, ih]

/-- No aware datetime is strictly greater than itself. -/
theorem DateTime.gtb_self (a : DateTime) : DateTime.gtb a a = false := by
  simp [DateTime.gtb, Date.ltb]

/-- The counters of a scan split over a concatenation of listings. -/
theorem runCounts_append (timeout : Nat) (dryRun : Bool)
    (xs ys : List SnapEnv) :
    runCounts timeout dryRun (xs ++ ys)
      = Counts.add (runCounts timeout dryRun xs)
          (runCounts timeout dryRun ys) := by
  induction xs with
  | nil => simp [runCounts, Counts.zero_add]
  | cons x rest ih => simp [runCounts, ih, Counts.add_assoc]

/-- Per-snapshot error accounting: one error is counted exactly for a
malformed expire_at, a delete call that raises, or a confirmation that
times out, and these cases exclude one another. -/
theorem evalStep_errors_char (timeout : Nat) (dryRun : Bool)
    (env : SnapEnv) :
    (evalStep timeout dryRun env).errors
      = (if hasMalformedExpireAt env then 1 else 0)
        + (if reachesDelete dryRun env && env.deleteRaises then 1 else 0)
        + (if confirmTimedOut timeout dryRun env then 1 else 0) := by
  cases h1 : dictLookup "expire_at" env.snap.metadata with
  | none =>
    simp [evalStep, hasMalformedExpireAt, reachesDelete, confirmTimedOut,
      h1, Counts.zero]
  | some s =>
    cases h2 : date_fromisoformat s with
    | none =>
      simp [evalStep, hasMalformedExpireAt, reachesDelete, confirmTimedOut,
        h1, h2]
    | some d =>
      cases h3 : DateTime.gtb env.now ⟨d, 0⟩ with
      | false =>
        simp [evalStep, hasMalformedExpireAt, reachesDelete, confirmTimedOut,
          h1, h2, h3, Counts.zero]
      | true =>
        cases hdry : dryRun with
        | true =>
          simp [evalStep, hasMalformedExpireAt, reachesDelete,
            confirmTimedOut, h1, h2, h3, Counts.zero]
        | false =>
          cases h4 : env.deleteRaises with
          | true =>
            simp [evalStep, hasMalformedExpireAt, reachesDelete,
              confirmTimedOut, h1, h2, h3, h4]
          | false =>
            cases h5 : confirmDeletion env.lookups env.waits timeout with
            | none =>
              simp [evalStep, hasMalformedExpireAt, reachesDelete,
                confirmTimedOut, h1, h2, h3, h4, h5]
            | some k =>
              simp [evalStep, hasMalformedExpireAt, reachesDelete,
                confirmTimedOut, h1, h2, h3, h4, h5]

/-- On a dry run, one snapshot never produces a delete call, a confirmation
loop, or a destroyed count. -/
theorem evalStep_dryRun (timeout : Nat) (env : SnapEnv) :
    (evalStep timeout true env).destroyed = 0
      ∧ (evalStep timeout true env).deletes = 0
      ∧ (evalStep timeout true env).confirms = 0 := by
  cases h1 : dictLookup "expire_at" env.snap.metadata with
  | none => simp [evalStep, h1, Counts.zero]
  | some s =>
    cases h2 : date_fromisoformat s with
    | none => simp [evalStep, h1, h2]
    | some d =>
      cases h3 : DateTime.gtb env.now ⟨d, 0⟩ with
      | false => simp [evalStep, h1, h2, h3, Counts.zero]
      | true => simp [evalStep, h1, h2, h3, Counts.zero]

/-- One snapshot contributes at most one to the two counters of the source,
and never to both. -/
theorem evalStep_le_one (timeout : Nat) (dryRun : Bool) (env : SnapEnv) :
    (evalStep timeout dryRun env).destroyed
      + (evalStep timeout dryRun env).errors ≤ 1 := by
  cases h1 : dictLookup "expire_at" env.snap.metadata with
  | none => simp [evalStep, h1, Counts.zero]
  | some s =>
    cases h2 : date_fromisoformat s with
    | none => simp [evalStep, h1, h2]
    | some d =>
      cases h3 : DateTime.gtb env.now ⟨d, 0⟩ with
      | false => simp [evalStep, h1, h2, h3, Counts.zero]
      | true =>
        cases dryRun with
        | true => simp [evalStep, h1, h2, h3, Counts.zero]
        | false =>
          cases h4 : env.deleteRaises with
          | true => simp [evalStep, h1, h2, h3, h4]
          | false =>
            cases h5 : confirmDeletion env.lookups env.waits timeout with
            | none => simp [evalStep, h1, h2, h3, h4, h5]
            | some k => simp [evalStep, h1, h2, h3, h4, h5]

/-- A listing that raises at any point makes the whole scan raise. -/
theorem runListing_error (timeout : Nat) (dryRun : Bool)
    (items : List ListingItem) (hmem : ListingItem.raiseErr ∈ items) :
    runListing timeout dryRun items = Except.error () := by
  induction items with
  | nil => cases hmem
  | cons item rest ih =>
    cases item with
    | raiseErr => rfl
    | snap env =>
      have hrest : ListingItem.raiseErr ∈ rest := by
        cases hmem with
        | tail _ h => exact h
      simp [runListing, ih hrest]

/-- C1. For a snapshot whose metadata holds a well-formed ISO expire_at
date, the scan treats it as expired, and on a non-dry run issues a delete
call, exactly when the current UTC time is strictly greater than midnight
UTC of that date; when the current time is not past that midnight, and in
particular when it equals it exactly, the snapshot is left alone and no
counter moves. -/
theorem expire_at_boundary (timeout : Nat) (dryRun : Bool) (env : SnapEnv)
    (s : String) (d : Date)
    (hs : dictLookup "expire_at" env.snap.metadata = some s)
    (hd : date_fromisoformat s = some d) :
    ((evalStep timeout false env).deletes = 1
        ↔ DateTime.gtb env.now ⟨d, 0⟩ = true)
      ∧ (DateTime.gtb env.now ⟨d, 0⟩ = false →
          evalStep timeout dryRun env = Counts.zero)
      ∧ (env.now = ⟨d, 0⟩ → evalStep timeout dryRun env = Counts.zero) := by
  have hkeep : DateTime.gtb env.now ⟨d, 0⟩ = false →
      evalStep timeout dryRun env = Counts.zero := by
    intro h3
    simp [evalStep, hs, hd, h3]
  refine ⟨?_, hkeep, ?_⟩
  · cases h3 : DateTime.gtb env.now ⟨d, 0⟩ with
    | false =>
      constructor
      · intro habs
        rw [show evalStep timeout false env = Counts.zero by
          simp [evalStep, hs, hd, h3]] at habs
        cases habs
      · intro habs
        cases habs
    | true =>
      constructor
      · intro _
        rfl
      · intro _
        cases h4 : env.deleteRaises with
        | true => simp [evalStep, hs, hd, h3, h4]
        | false =>
          cases h5 : confirmDeletion env.lookups env.waits timeout with
          | none => simp [evalStep, hs, hd, h3, h4, h5]
          | some k => simp [evalStep, hs, hd, h3, h4, h5]
  · intro hnow
    apply hkeep
    rw [hnow]
    exact DateTime.gtb_self ⟨d, 0⟩

/-- C2. Failures are isolated per snapshot: the counters of a scan over any
listing that contains a given snapshot split into the contributions of the
snapshots before it, of that snapshot alone, and of the snapshots after it,
so an error on one snapshot never changes what happens to the others. -/
theorem per_snapshot_isolation (timeout : Nat) (dryRun : Bool)
    (xs : List SnapEnv) (y : SnapEnv) (ys : List SnapEnv) :
    runCounts timeout dryRun (xs ++ y :: ys)
      = Counts.add (runCounts timeout dryRun xs)
          (Counts.add (evalStep timeout dryRun y)
            (runCounts timeout dryRun ys)) := by
  rw [runCounts_append]
  rfl

/-- C5. A snapshot whose metadata has no expire_at key is skipped: no
delete call, no confirmation loop, and no counter movement, whatever the
dry-run flag and the current time. -/
theorem no_expire_at_skipped (timeout : Nat) (dryRun : Bool) (env : SnapEnv)
    (h : dictLookup "expire_at" env.snap.metadata = none) :
    evalStep timeout dryRun env = Counts.zero := by
  simp [evalStep, h]

/-- C5 witness: a concrete snapshot with empty metadata is skipped. -/
theorem no_expire_at_skipped_witness :
    dictLookup "expire_at" (Snapshot.mk "snap-0" []).metadata = none
      ∧ evalStep 5 false
          ⟨Snapshot.mk "snap-0" [], ⟨⟨2021, 6, 1⟩, 0⟩, false,
            fun _ => true, fun _ => 1⟩ = Counts.zero :=
  ⟨rfl, no_expire_at_skipped 5 false
    ⟨Snapshot.mk "snap-0" [], ⟨⟨2021, 6, 1⟩, 0⟩, false,
      fun _ => true, fun _ => 1⟩ rfl⟩

/-- A concrete expired snapshot whose deletion succeeds and is confirmed at
the first polling attempt. -/
def expiredEnv : SnapEnv :=
  ⟨Snapshot.mk "snap-1" [("expire_at", "2020-01-01")], ⟨⟨2021, 6, 1⟩, 0⟩,
    false, fun _ => true, fun _ => 1⟩

/-- A concrete snapshot whose expire_at value is not a valid ISO date. -/
def malformedEnv : SnapEnv :=
  ⟨Snapshot.mk "snap-2" [("expire_at", "not-a-date")], ⟨⟨2021, 6, 1⟩, 0⟩,
    false, fun _ => true, fun _ => 1⟩

/-- C1 witness: the boundary theorem applied to the concrete snapshot whose
expire_at is 2020-01-01 while the scan runs on 2021-06-01. -/
theorem expire_at_boundary_witness :
    (dictLookup "expire_at" expiredEnv.snap.metadata = some "2020-01-01"
        ∧ date_fromisoformat "2020-01-01" = some ⟨2020, 1, 1⟩)
      ∧ ((evalStep 5 false expiredEnv).deletes = 1
            ↔ DateTime.gtb expiredEnv.now ⟨⟨2020, 1, 1⟩, 0⟩ = true)
      ∧ (DateTime.gtb expiredEnv.now ⟨⟨2020, 1, 1⟩, 0⟩ = false →
          evalStep 5 false expiredEnv = Counts.zero)
      ∧ (expiredEnv.now = ⟨⟨2020, 1, 1⟩, 0⟩ →
          evalStep 5 false expiredEnv = Counts.zero) :=
  ⟨⟨by decide, by decide⟩,
    expire_at_boundary 5 false expiredEnv "2020-01-01" ⟨2020, 1, 1⟩
      (by decide) (by decide)⟩

/-- C3 counterexample: a scan over one snapshot whose expire_at is
malformed ends with one counted error although no delete call raised and no
confirmation timed out, so error_count is not the sum of those two kinds
alone. -/
theorem errors_beyond_delete_and_timeout :
    (runCounts 5 false [malformedEnv]).errors = 1
      ∧ deleteRaisedCount false [malformedEnv]
          + confirmTimeoutCount 5 false [malformedEnv] = 0 := by
  constructor
  · decide
  · decide

/-- C3 amended: error_count equals the number of snapshots with a
malformed expire_at, plus the number whose delete call raised, plus the
number whose confirmation never observed the snapshot gone within the
timeout. -/
theorem error_count_decomposition (timeout : Nat) (dryRun : Bool)
    (envs : List SnapEnv) :
    (runCounts timeout dryRun envs).errors
      = malformedCount envs + deleteRaisedCount dryRun envs
          + confirmTimeoutCount timeout dryRun envs := by
  induction envs with
  | nil => rfl
  | cons e rest ih =>
    have hc := evalStep_errors_char timeout dryRun e
    simp only [runCounts, Counts.add, malformedCount, deleteRaisedCount,
      confirmTimeoutCount, List.countP_cons] at *
    rw [hc, ih]
    split_ifs <;> omega

/-- C4 counterexample: when pulling the next snapshot from the listing
raises, the exception propagates out of process_snapshots instead of being
converted into an incremented error counter, because the for statement sits
outside the try block. -/
theorem listing_failure_propagates :
    process_snapshotsFull 5 false [ListingItem.raiseErr] = Except.error ()
      ∧ runListing 5 false [ListingItem.raiseErr] = Except.error () :=
  ⟨rfl, rfl⟩

/-- C4 amended: a failure while listing the snapshots aborts the scan of
the whole project: whenever the listing raises at any position, the run
of process_snapshots ends with that exception, whatever was processed
before; only failures of already-listed snapshots are counted
per-snapshot. -/
theorem listing_failure_aborts (timeout : Nat) (dryRun : Bool)
    (items : List ListingItem) (hmem : ListingItem.raiseErr ∈ items) :
    process_snapshotsFull timeout dryRun items = Except.error () := by
  simp [process_snapshotsFull, runListing_error timeout dryRun items hmem]

/-- C4 amended witness: a listing of one failing pull makes the whole run
raise. -/
theorem listing_failure_aborts_witness :
    ListingItem.raiseErr ∈ [ListingItem.raiseErr]
      ∧ process_snapshotsFull 3 true [ListingItem.raiseErr]
          = Except.error () :=
  ⟨List.mem_cons_self ListingItem.raiseErr [],
    listing_failure_aborts 3 true [ListingItem.raiseErr]
      (List.mem_cons_self ListingItem.raiseErr [])⟩

/-- C6. On a dry run, the scan issues no delete call and enters no
confirmation loop for any snapshot, expired or not, and the destroyed
counter ends at zero. -/
theorem dry_run_never_deletes (timeout : Nat) (envs : List SnapEnv) :
    ((runCounts timeout true envs).deletes = 0
        ∧ (runCounts timeout true envs).confirms = 0
        ∧ (runCounts timeout true envs).destroyed = 0)
      ∧ ∀ env : SnapEnv, (evalStep timeout true env).deletes = 0
          ∧ (evalStep timeout true env).confirms = 0
          ∧ (evalStep timeout true env).destroyed = 0 := by
  constructor
  · induction envs with
    | nil => exact ⟨rfl, rfl, rfl⟩
    | cons e rest ih =>
      obtain ⟨h1, h2, h3⟩ := evalStep_dryRun timeout e
      simp [runCounts, Counts.add, h1, h2, h3, ih.1, ih.2.1, ih.2.2]
  · intro env
    obtain ⟨h1, h2, h3⟩ := evalStep_dryRun timeout env
    exact ⟨h2, h3, h1⟩

/-- C7. The scan reports success exactly when its error counter ends at
zero, and the report depends on nothing else: two runs with equal error
counters report alike, whatever their destroyed counters. -/
theorem returns_success_iff_no_errors (timeout : Nat) (dryRun : Bool)
    (envs envs2 : List SnapEnv)
    (h : (runCounts timeout dryRun envs).errors
        = (runCounts timeout dryRun envs2).errors) :
    (process_snapshots timeout dryRun envs = true
        ↔ (runCounts timeout dryRun envs).errors = 0)
      ∧ process_snapshots timeout dryRun envs
          = process_snapshots timeout dryRun envs2 := by
  constructor
  · simp [process_snapshots]
  · simp [process_snapshots, h]

/-- C7 witness: the empty scan and a scan destroying one snapshot have
equal error counters, both report success, and the destroyed counters
differ, showing the report ignores them. -/
theorem returns_success_iff_no_errors_witness :
    (runCounts 5 false []).errors = (runCounts 5 false [expiredEnv]).errors
      ∧ ((process_snapshots 5 false [] = true
            ↔ (runCounts 5 false []).errors = 0)
          ∧ process_snapshots 5 false []
              = process_snapshots 5 false [expiredEnv])
      ∧ (runCounts 5 false [expiredEnv]).destroyed = 1 :=
  ⟨by decide,
    returns_success_iff_no_errors 5 false [] [expiredEnv] (by decide),
    by decide⟩

/-- C9. Each snapshot moves at most one of the two counters of the source,
and never both, so after a scan of n snapshots destroyed and error counts
sum to at most n. -/
theorem counters_bounded_by_length (timeout : Nat) (dryRun : Bool)
    (envs : List SnapEnv) :
    ((runCounts timeout dryRun envs).destroyed
        + (runCounts timeout dryRun envs).errors ≤ envs.length)
      ∧ ∀ env : SnapEnv, (evalStep timeout dryRun env).destroyed
          + (evalStep timeout dryRun env).errors ≤ 1 := by
  constructor
  · induction envs with
    | nil => simp [runCounts, Counts.zero]
    | cons e rest ih =>
      have he := evalStep_le_one timeout dryRun e
      simp only [runCounts, Counts.add, List.length_cons]
      omega
  · exact evalStep_le_one timeout dryRun

/-- C10. A dry run is not guaranteed to succeed: a snapshot whose
expire_at is present but malformed raises during parsing before the
dry-run branch is reached, so the scan counts one error and returns false
although it never issued a delete call. -/
theorem dry_run_can_return_false :
    process_snapshots 5 true [malformedEnv] = false
      ∧ (runCounts 5 true [malformedEnv]).errors = 1
      ∧ (runCounts 5 true [malformedEnv]).deletes = 0 := by
  refine ⟨?_, ?_, ?_⟩ <;> decide

/-- The polling attempt outcomes used by the C8 witness: the snapshot is
still reported present at attempt 0 and gone from attempt 1 on. -/
def lkW : Nat → Bool := fun i => i == 1

/-- The sleeps used by the C8 witness: one second between attempts. -/
def wW : Nat → Nat := fun _ => 1

/-- C8. In the confirmation loop, a ResourceNotFound lookup is terminal
success and any other outcome triggers another attempt: a successful run
confirms at the first attempt that observes the snapshot gone, and under
the wait_random(1, 2) guarantee that every sleep lasts at least one second
the confirming attempt index is bounded by the timeout. When no attempt
ever observes the snapshot gone the loop ends with RetryError instead of
looping forever. On the counters, a confirmed deletion is one destroyed
count, exactly once, and a timed-out confirmation is one error count. -/
theorem confirmation_loop_spec (lookup : Nat → Bool) (waits : Nat → Nat)
    (timeout : Nat) (hw : ∀ n, 1 ≤ waits n) :
    (∀ k, confirmDeletion lookup waits timeout = some k →
        lookup k = true ∧ (∀ j, j < k → lookup j = false) ∧ k ≤ timeout)
      ∧ ((∀ j, lookup j = false) →
          confirmDeletion lookup waits timeout = none)
      ∧ (∀ env : SnapEnv, env.deleteRaises = false →
          reachesDelete false env = true →
          ((∃ k, confirmDeletion env.lookups env.waits timeout = some k) →
              evalStep timeout false env = ⟨1, 0, 1, 1⟩)
            ∧ (confirmDeletion env.lookups env.waits timeout = none →
                evalStep timeout false env = ⟨0, 1, 1, 1⟩)) := by
  refine ⟨?_, ?_, ?_⟩
  · intro k hk
    obtain ⟨-, h2, h3⟩ :=
      retryConfirm_some lookup waits timeout (timeout + 1) 0 0 k hk
    obtain ⟨-, hb⟩ :=
      retryConfirm_bound lookup waits timeout hw (timeout + 1) 0 0 k hk
    refine ⟨h2, fun j hj => h3 j (Nat.zero_le j) hj, ?_⟩
    rcases hb with heq | hle
    · omega
    · omega
  · intro hall
    exact retryConfirm_none lookup waits timeout hall (timeout + 1) 0 0
  · intro env hdel hreach
    cases h1 : dictLookup "expire_at" env.snap.metadata with
    | none => simp [reachesDelete, h1] at hreach
    | some s =>
      cases h2 : date_fromisoformat s with
      | none => simp [reachesDelete, h1, h2] at hreach
      | some d =>
        have h3 : DateTime.gtb env.now ⟨d, 0⟩ = true := by
          simpa [reachesDelete, h1, h2] using hreach
        constructor
        · intro hsome
          obtain ⟨k, hk⟩ := hsome
          simp [evalStep, h1, h2, h3, hdel, hk]
        · intro hnone
          simp [evalStep, h1, h2, h3, hdel, hnone]

/-- C8 witness: with the snapshot observed gone from attempt 1 on and
one-second sleeps, the loop confirms at attempt 1, earlier attempts
observed it present, and the attempt index is within the timeout of 5. -/
theorem confirmation_loop_spec_witness :
    1 ≤ wW 0
      ∧ confirmDeletion lkW wW 5 = some 1
      ∧ lkW 1 = true ∧ lkW 0 = false ∧ (1 : Nat) ≤ 5 := by
  have hw : ∀ n, 1 ≤ wW n := fun _ => Nat.le_refl 1
  have hsome : confirmDeletion lkW wW 5 = some 1 := by decide
  have h := (confirmation_loop_spec lkW wW 5 hw).1 1 hsome
  exact ⟨hw 0, hsome, h.1, h.2.1 0 (Nat.zero_lt_one), h.2.2⟩
